import Mathlib

/-!
# Verification of the Migrantifly consultation-booking and payment subsystem

Shallow embedding of the consultation booking / payment reconciliation core of
the `migrantifly_backend` repository:

* `src/routes/consultation.js` and its sibling copy in `src/unnamed/part_006`
  (slot ledger, booking, confirm, cancel, edit),
* `src/routes/payment.js` (webhook, verify-checkout-session,
  create-consultation-payment, payment handlers),
* `src/unnamed/part_012` (the `Consultation` mongoose schema and its indexes),
* `src/models/Payment.js` (the `Payment` mongoose schema).

Mongo collections are lists of records; each route handler is a pure function
from a `World` (database snapshot) to an `Outcome` carrying the new world, the
list of externally visible side effects (database writes, e-mails,
notifications, invoice generations) and the HTTP-level result.  Timestamps are
milliseconds since the epoch, as produced by JavaScript `Date.now()`, modelled
as `Int`.  Monetary amounts are JavaScript numbers carrying decimal dollars,
modelled as `ℚ`.
-/

namespace Migrantifly

/-- Payment.status enum from `src/models/Payment.js`
(`pending | completed | failed | refunded | partial_refund`). -/
inductive PayStatus
  | pending
  | completed
  | failed
  | refunded
  | refundPartOnly
  deriving DecidableEq

/-- Payment.type enum from `src/models/Payment.js`
(`deposit | final | additional | refund | consultation_fee`). -/
inductive PayType
  | deposit
  | finalFee
  | additional
  | refundEntry
  | consultationFee
  deriving DecidableEq

/-- Consultation.status enum from `src/unnamed/part_012`
(`pending_payment | scheduled | completed | cancelled | rescheduled | no-show`). -/
inductive CStatus
  | pendingPayment
  | scheduled
  | completed
  | cancelled
  | rescheduled
  | noShow
  deriving DecidableEq

/-- A `Payment` document (`src/models/Payment.js`). -/
structure Payment where
  id : Nat
  clientId : Nat
  consultationId : Option Nat := none
  applicationId : Option Nat := none
  amount : ℚ
  currency : String := "USD"
  ptype : PayType
  status : PayStatus := .pending
  transactionId : Option String := none
  gatewayReference : Option String := none
  invoiceNumber : Option String := none
  invoiceUrl : Option String := none
  notes : Option String := none
  deriving DecidableEq

/-- A `Consultation` document (`src/unnamed/part_012`, first schema). -/
structure Consultation where
  id : Nat
  clientId : Nat
  adviserId : Option Nat := none
  paymentId : Option Nat := none
  ctype : String := "initial"
  scheduledDate : Int
  duration : Int := 60
  method : String
  status : CStatus := .pendingPayment
  notes : Option String := none
  meetingLink : Option String := none
  rescheduledFrom : Option Nat := none
  rescheduleReason : Option String := none
  expiresAt : Option Int := none
  deriving DecidableEq

/-- An `Application` document, restricted to the fields the payment
reconciliation code reads and writes (`stage`, `progress`, `timeline`). -/
structure Application where
  id : Nat
  clientId : Nat
  stage : String
  progress : Nat := 0
  timelineLen : Nat := 0
  deriving DecidableEq

/-- A `User` document, restricted to what the booking code needs. -/
structure UserRec where
  id : Nat
  email : String
  deriving DecidableEq

/-- Externally visible side effects performed by a handler: database writes to
each collection, invoice generation, outbound e-mails and notifications. -/
inductive Effect
  | paymentWrite (id : Nat)
  | consultationWrite (id : Nat)
  | applicationWrite (id : Nat)
  | userWrite (id : Nat)
  | invoiceGenerated (paymentId : Nat)
  | emailSent (template : String)
  | notificationSent (ntype : String)
  deriving DecidableEq

/-- A database snapshot: the four collections plus a fresh-id counter standing
for MongoDB ObjectId generation. -/
structure World where
  users : List UserRec := []
  consultations : List Consultation := []
  payments : List Payment := []
  applications : List Application := []
  fresh : Nat := 0
  deriving DecidableEq

/-- Result of one handler call: the updated database, the side effects emitted
(in program order) and the handler-specific response. -/
structure Outcome (α : Type) where
  world : World
  effects : List Effect
  result : α
  deriving DecidableEq

/-- Helper in the style of `findByIdAndUpdate`: apply `f` to the documents matching `pr`. -/
def updateWhere {α : Type} (l : List α) (pr : α → Bool) (f : α → α) : List α :=
  l.map fun a => if pr a then f a else a

/-- Update the payment with the given id. -/
def World.updatePayment (w : World) (pid : Nat) (f : Payment → Payment) : World :=
  { w with payments := updateWhere w.payments (fun p => p.id == pid) f }

/-- Update the consultation with the given id. -/
def World.updateConsultation (w : World) (cid : Nat) (f : Consultation → Consultation) :
    World :=
  { w with consultations := updateWhere w.consultations (fun c => c.id == cid) f }

/-- Update the application with the given id. -/
def World.updateApplication (w : World) (aid : Nat) (f : Application → Application) :
    World :=
  { w with applications := updateWhere w.applications (fun a => a.id == aid) f }

/-- Status of the payment with the given id, when it exists. -/
def World.payStatusOf (w : World) (pid : Nat) : Option PayStatus :=
  (w.payments.find? (fun p => p.id == pid)).map Payment.status

/-- Status of the consultation with the given id, when it exists. -/
def World.consStatusOf (w : World) (cid : Nat) : Option CStatus :=
  (w.consultations.find? (fun c => c.id == cid)).map Consultation.status

-- ============================================================
-- Slot Ledger (src/routes/consultation.js lines 21-30,
-- identical in src/unnamed/part_006 lines 23-32)
-- ============================================================

/-- Function `isSlotAvailable(startTime, endTime)`: true when no consultation with
status `scheduled` or `completed` has its `scheduledDate` in
`[startTime, endTime)` (the mongoose query
`scheduledDate: { $gte: startTime, $lt: endTime }, status: { $in: [...] }`). -/
def isSlotAvailable (cs : List Consultation) (startTime endTime : Int) : Bool :=
  !(cs.any fun c =>
    decide (startTime ≤ c.scheduledDate) && decide (c.scheduledDate < endTime) &&
      (c.status == CStatus.scheduled || c.status == CStatus.completed))

/-- Modelled from the spec (section 4.1): availability as the spec words it —
no consultation whose status is an unexpired hold (`pending_payment` with
`expiresAt` in the future), `scheduled` (confirmed) or `completed` occupies the
window.  Used only to compare the spec's contract against `isSlotAvailable`. -/
def slotFreeSpec (now : Int) (cs : List Consultation) (startTime endTime : Int) : Bool :=
  !(cs.any fun c =>
    decide (startTime ≤ c.scheduledDate) && decide (c.scheduledDate < endTime) &&
      ((c.status == CStatus.pendingPayment &&
          (match c.expiresAt with
           | some e => decide (now < e)
           | none => false)) ||
        c.status == CStatus.scheduled || c.status == CStatus.completed))

/-- An unexpired `pending_payment` hold occupying the 10:00-11:00 window. -/
def holdAtTen : Consultation :=
  { id := 1, clientId := 1, scheduledDate := 36000000, method := "zoom",
    status := .pendingPayment, expiresAt := some 1800000 }

-- ============================================================
-- Booking Hold Manager (src/unnamed/part_006 lines 110-247)
-- and the consultation schema indexes (src/unnamed/part_012)
-- ============================================================

/-- Regex `^\d{4}-\d{2}-\d{2}$` used to validate `preferredDate`. -/
def dateFormatOk (s : String) : Bool :=
  match s.toList with
  | [y1, y2, y3, y4, s1, m1, m2, s2, d1, d2] =>
      y1.isDigit && y2.isDigit && y3.isDigit && y4.isDigit && s1 == '-' &&
        m1.isDigit && m2.isDigit && s2 == '-' && d1.isDigit && d2.isDigit
  | _ => false

/-- Regex `^\d{2}:\d{2}$` used to validate `preferredTime`. -/
def timeFormatOk (s : String) : Bool :=
  match s.toList with
  | [h1, h2, c, m1, m2] =>
      h1.isDigit && h2.isDigit && c == ':' && m1.isDigit && m2.isDigit
  | _ => false

/-- The `methodMap` normalization of the public API's method names. -/
def methodNormalize (m : String) : String :=
  if m = "online" then "zoom" else if m = "in_person" then "in-person" else m

/-- Methods accepted by the consultation schema. -/
def validMethods : List String := ["zoom", "phone", "in-person", "google-meet"]

/-- Constant `CONSULTATION_FEE = 50` USD. -/
def CONSULTATION_FEE : ℚ := 50

/-- Constant `SLOT_DURATION = 60` minutes. -/
def SLOT_DURATION : Int := 60

/-- Default of `HOLD_MINUTES` (`process.env.CONSULTATION_HOLD_MINUTES || '30'`). -/
def HOLD_MINUTES_DEFAULT : Int := 30

/-- Body of `POST /book`. -/
structure BookRequest where
  clientEmail : String
  clientName : String
  clientPhone : String := ""
  preferredDate : String
  preferredTime : String
  method : String
  message : Option String := none
  deriving DecidableEq

/-- Responses of `POST /book`: the 400 validation rejections, the 409
`SLOT_UNAVAILABLE` conflict, and the 201 creation response. -/
inductive BookResult
  | missingFields
  | badDate
  | badTime
  | badMethod
  | pastDate
  | slotUnavailable
  | created (consultationId paymentId : Nat)
  deriving DecidableEq

/-- Shared tail of `POST /book` once validation passed and the client user
record is resolved: create the `pending_payment` consultation with its TTL
expiry, create the `pending` payment for the fixed fee, and link the
consultation to the payment (`consultation.paymentId = payment._id`).  The
payment record is created without a `consultationId` back-reference. -/
def bookFinish (w1 : World) (clientId : Nat) (e1 : List Effect)
    (now holdMinutes sched : Int) (rq : BookRequest) : Outcome BookResult :=
  let cid := w1.fresh
  let cons : Consultation :=
    { id := cid, clientId := clientId, scheduledDate := sched,
      duration := SLOT_DURATION, method := methodNormalize rq.method,
      status := .pendingPayment, notes := rq.message,
      expiresAt := some (now + holdMinutes * 60 * 1000) }
  let w2 := { w1 with consultations := cons :: w1.consultations, fresh := w1.fresh + 1 }
  let pid := w2.fresh
  let pay : Payment :=
    { id := pid, clientId := clientId, ptype := .consultationFee,
      amount := CONSULTATION_FEE, currency := "USD", status := .pending,
      notes := some ("Consultation fee for " ++ rq.preferredDate ++ " at " ++
        rq.preferredTime) }
  let w3 := { w2 with payments := pay :: w2.payments, fresh := w2.fresh + 1 }
  let w4 := w3.updateConsultation cid (fun c => { c with paymentId := some pid })
  ⟨w4,
   e1 ++ [Effect.consultationWrite cid, Effect.paymentWrite pid,
     Effect.consultationWrite cid],
   .created cid pid⟩

/-- Handler of `POST /book` (src/unnamed/part_006 lines 111-247).  `sched` is the epoch
timestamp produced by `new Date(preferredDate + 'T' + preferredTime + ':00Z')`
from the already-validated date and time strings (calendar parsing is the
JavaScript runtime's concern); `now` is `Date.now()` at request time and
`holdMinutes` the configured `HOLD_MINUTES`. -/
def book (w : World) (now holdMinutes : Int) (rq : BookRequest) (sched : Int) :
    Outcome BookResult :=
  if rq.clientEmail = "" ∨ rq.clientName = "" ∨ rq.preferredDate = "" ∨
      rq.preferredTime = "" ∨ rq.method = "" then ⟨w, [], .missingFields⟩
  else if dateFormatOk rq.preferredDate = false then ⟨w, [], .badDate⟩
  else if timeFormatOk rq.preferredTime = false then ⟨w, [], .badTime⟩
  else if validMethods.contains (methodNormalize rq.method) = false then
    ⟨w, [], .badMethod⟩
  else if sched < now then ⟨w, [], .pastDate⟩
  else if isSlotAvailable w.consultations sched (sched + SLOT_DURATION * 60000)
      = false then ⟨w, [], .slotUnavailable⟩
  else
    match w.users.find? (fun u => u.email == rq.clientEmail) with
    | some u => bookFinish w u.id [] now holdMinutes sched rq
    | none =>
        bookFinish
          { w with users := { id := w.fresh, email := rq.clientEmail } :: w.users,
                   fresh := w.fresh + 1 }
          w.fresh [Effect.userWrite w.fresh] now holdMinutes sched rq

/-- A mongoose index declaration, as far as concurrency control is concerned:
its key set, whether it was declared `unique`, and whether it is a TTL index. -/
structure IndexSpec where
  keys : List String
  unique : Bool := false
  ttl : Bool := false
  deriving DecidableEq

/-- The indexes declared on the consultation schema
(src/unnamed/part_012 lines 22-26 and 60-64): the field-level index on
`scheduledDate`, the compound `{ scheduledDate: 1, status: 1 }` index commented
"for efficient slot checking", and the TTL index on `expiresAt` with
`expireAfterSeconds: 0`.  None of them is declared with the `unique` option. -/
def consultationIndexes : List IndexSpec :=
  [ { keys := ["scheduledDate"] },
    { keys := ["scheduledDate", "status"] },
    { keys := ["expiresAt"], ttl := true } ]

/-- The reap implied by the `expireAfterSeconds: 0` TTL index on `expiresAt`:
at time `now` the persistence layer has deleted every document whose
`expiresAt` has passed. -/
def ttlReap (now : Int) (cs : List Consultation) : List Consultation :=
  cs.filter fun c =>
    match c.expiresAt with
    | some e => decide (now < e)
    | none => true

/-- The empty database. -/
def emptyWorld : World := {}

/-- A well-formed public booking request for the 10:00 UTC slot. -/
def rqZoom : BookRequest :=
  { clientEmail := "jane@example.com", clientName := "Jane Doe",
    preferredDate := "2025-03-01", preferredTime := "10:00", method := "zoom" }

-- ============================================================
-- Cancellation and refund (src/routes/consultation.js lines 317-381,
-- identical in src/unnamed/part_006 lines 328-392)
-- ============================================================

/-- Responses of `PATCH /:id/cancel`; `ok` carries the handler's `canRefund`
flag (reported as `refund_processed` versus `no_refund_within_24_hours`). -/
inductive CancelResult
  | notFound
  | unauthorized
  | badState
  | ok (canRefund : Bool)
  deriving DecidableEq

/-- Handler of `PATCH /:id/cancel`: guard on ownership/role, allow only `scheduled` or
`pending_payment`, compute `canRefund` from the 24-hour rule, set the
consultation `cancelled`, then flip the linked payment `completed → refunded`
only when `canRefund`. -/
def cancel (w : World) (now : Int) (actorId : Nat) (actorRole : String)
    (cid : Nat) : Outcome CancelResult :=
  match w.consultations.find? (fun c => c.id == cid) with
  | none => ⟨w, [], .notFound⟩
  | some c =>
    if c.clientId ≠ actorId ∧ actorRole ≠ "admin" ∧ actorRole ≠ "adviser" then
      ⟨w, [], .unauthorized⟩
    else if ¬(c.status = CStatus.scheduled ∨ c.status = CStatus.pendingPayment)
        then ⟨w, [], .badState⟩
    else
      let canRefund : Bool :=
        decide ((24 : ℚ) < ((c.scheduledDate - now : Int) : ℚ) / (1000 * 60 * 60))
      let w1 := w.updateConsultation cid
        (fun x => { x with status := CStatus.cancelled })
      match c.paymentId, canRefund with
      | some pid, true =>
        match w1.payments.find? (fun p => p.id == pid) with
        | some p =>
          if p.status = PayStatus.completed then
            ⟨w1.updatePayment pid (fun q => { q with status := PayStatus.refunded }),
             [Effect.consultationWrite cid, Effect.paymentWrite pid],
             .ok canRefund⟩
          else ⟨w1, [Effect.consultationWrite cid], .ok canRefund⟩
        | none => ⟨w1, [Effect.consultationWrite cid], .ok canRefund⟩
      | _, _ => ⟨w1, [Effect.consultationWrite cid], .ok canRefund⟩

-- ============================================================
-- Payment reconciliation (src/routes/payment.js)
-- ============================================================

/-- The fields of a Stripe Checkout Session the handlers read: the session id,
`payment_status`, `payment_intent`, customer e-mail and the `metadata` keys
set by the checkout-creation endpoints. -/
structure StripeSession where
  id : String
  paymentStatus : String
  paymentIntent : Option String := none
  customerEmail : Option String := none
  metaType : Option String := none
  metaPaymentId : Option Nat := none
  metaConsultationId : Option Nat := none
  metaApplicationId : Option Nat := none
  metaClientId : Option Nat := none
  metaClientEmail : Option String := none
  deriving DecidableEq

/-- Function `handlePaymentSuccess` (payment.js lines 620-647): look the payment up by
transaction id or gateway reference and complete it only when it is not
already `completed`; the notification is sent only in that branch. -/
def handlePaymentSuccess (w : World) (intentId : String) : Outcome Unit :=
  match w.payments.find? (fun p =>
      p.transactionId == some intentId || p.gatewayReference == some intentId) with
  | some p =>
    if p.status ≠ PayStatus.completed then
      ⟨w.updatePayment p.id (fun q =>
          { q with status := PayStatus.completed,
                   gatewayReference := some intentId }),
       [Effect.paymentWrite p.id, Effect.notificationSent "payment_received"], ()⟩
    else ⟨w, [], ()⟩
  | none => ⟨w, [], ()⟩

/-- Function `handlePaymentFailure` (payment.js lines 781-805): look the payment up by
transaction id and set it `failed` — with no guard on its current status. -/
def handlePaymentFailure (w : World) (intentId : String) : Outcome Unit :=
  match w.payments.find? (fun p => p.transactionId == some intentId) with
  | some p =>
    ⟨w.updatePayment p.id (fun q => { q with status := PayStatus.failed }),
     [Effect.paymentWrite p.id, Effect.notificationSent "payment_failed"], ()⟩
  | none => ⟨w, [], ()⟩

/-- The guarded application-stage advance shared by the deposit branches of
the webhook and verify handlers: `Application.findById(aid)` followed by the
`stage === 'consultation'` check, then `deposit_paid`, progress 20 and a
timeline push. -/
def advanceDepositStage (w1 : World) (aid : Nat) : World × List Effect :=
  match w1.applications.find? (fun a => a.id == aid) with
  | some a =>
    if a.stage = "consultation" then
      (w1.updateApplication aid (fun b =>
        { b with stage := "deposit_paid", progress := 20,
                 timelineLen := b.timelineLen + 1 }),
       [Effect.applicationWrite aid])
    else (w1, [])
  | none => (w1, [])

/-- Function `handleCheckoutSessionCompleted` (payment.js lines 650-778): the deposit
branch and the consultation branch both use an unconditional
`findByIdAndUpdate` to mark the payment `completed`; the deposit branch then
conditionally advances the application, regenerates the invoice
unconditionally and e-mails; the consultation branch unconditionally flips the
consultation to `scheduled` and e-mails (the e-mail data needs the populated
client, so a missing user aborts the e-mail inside the inner try/catch). -/
def handleCheckoutSessionCompleted (w : World) (now : Int) (s : StripeSession) :
    Outcome Unit :=
  if s.metaType = some "deposit" then
    match s.metaPaymentId with
    | none => ⟨w, [], ()⟩
    | some pid =>
      match w.payments.find? (fun p => p.id == pid) with
      | none => ⟨w, [], ()⟩
      | some _ =>
        let w1 := w.updatePayment pid (fun q =>
          { q with status := PayStatus.completed, transactionId := some s.id,
                   gatewayReference := s.paymentIntent })
        let stepApp : World × List Effect :=
          match s.metaApplicationId with
          | none => (w1, [])
          | some aid => advanceDepositStage w1 aid
        let invoiceNumber := "INV-" ++ toString now
        let w3 := stepApp.1.updatePayment pid (fun q =>
          { q with invoiceUrl := some ("https://invoices/" ++ invoiceNumber),
                   invoiceNumber := some invoiceNumber })
        ⟨w3,
         Effect.paymentWrite pid :: stepApp.2 ++
           [Effect.invoiceGenerated pid, Effect.paymentWrite pid,
            Effect.emailSent "payment-confirmation"], ()⟩
  else
    match s.metaPaymentId with
    | none => ⟨w, [], ()⟩
    | some pid =>
      match w.payments.find? (fun p => p.id == pid) with
      | none => ⟨w, [], ()⟩
      | some _ =>
        let w1 := w.updatePayment pid (fun q =>
          { q with status := PayStatus.completed, transactionId := some s.id,
                   gatewayReference := s.paymentIntent })
        match s.metaConsultationId with
        | none => ⟨w1, [Effect.paymentWrite pid], ()⟩
        | some cid =>
          match w1.consultations.find? (fun c => c.id == cid) with
          | none => ⟨w1, [Effect.paymentWrite pid], ()⟩
          | some c =>
            let w2 := w1.updateConsultation cid (fun x =>
              { x with status := CStatus.scheduled })
            match w2.users.find? (fun u => u.id == c.clientId) with
            | some _ =>
              ⟨w2, [Effect.paymentWrite pid, Effect.consultationWrite cid,
                Effect.emailSent "consultation-payment-confirmed"], ()⟩
            | none =>
              ⟨w2, [Effect.paymentWrite pid, Effect.consultationWrite cid], ()⟩

/-- First block of `POST /verify-checkout-session` (payment.js lines 219-234):
complete the payment found by `metadata.paymentId`, but only when it is not
already `completed`; also backfill its `consultationId` from the metadata.
Returns the in-memory `payment` object the later blocks reuse. -/
def verifyStep1 (w : World) (s : StripeSession) :
    World × List Effect × Option Payment :=
  match s.metaPaymentId with
  | none => (w, [], none)
  | some pid =>
    match w.payments.find? (fun p => p.id == pid) with
    | none => (w, [], none)
    | some p =>
      if p.status ≠ PayStatus.completed then
        let p1 : Payment :=
          { p with status := PayStatus.completed, transactionId := some s.id,
                   gatewayReference :=
                     match s.paymentIntent with
                     | some x => some x
                     | none => p.gatewayReference,
                   consultationId :=
                     match p.consultationId, s.metaConsultationId with
                     | none, some mcid => some mcid
                     | o, _ => o }
        (w.updatePayment pid (fun q =>
          { q with status := PayStatus.completed, transactionId := some s.id,
                   gatewayReference :=
                     match s.paymentIntent with
                     | some x => some x
                     | none => q.gatewayReference,
                   consultationId :=
                     match q.consultationId, s.metaConsultationId with
                     | none, some mcid => some mcid
                     | o, _ => o }),
         [Effect.paymentWrite pid], some p1)
      else (w, [], some p)

/-- Second block of `POST /verify-checkout-session` (payment.js lines 236-270):
only when `metadata.type === 'deposit'` and an `applicationId` is present,
conditionally advance the application stage and generate the invoice when the
in-memory payment has none yet. -/
def verifyStep2 (w : World) (now : Int) (s : StripeSession)
    (pOpt : Option Payment) : World × List Effect :=
  if s.metaType = some "deposit" then
    match s.metaApplicationId with
    | none => (w, [])
    | some aid =>
      let stepApp : World × List Effect := advanceDepositStage w aid
      match pOpt with
      | some p1 =>
        if p1.invoiceUrl = none then
          let invoiceNumber := "INV-" ++ toString now
          (stepApp.1.updatePayment p1.id (fun q =>
            { q with invoiceUrl := some ("https://invoices/" ++ invoiceNumber),
                     invoiceNumber := some invoiceNumber }),
           stepApp.2 ++ [Effect.invoiceGenerated p1.id, Effect.paymentWrite p1.id])
        else stepApp
      | none => stepApp
  else (w, [])

/-- Third block of `POST /verify-checkout-session` (payment.js lines 272-279):
`Consultation.findOneAndUpdate({ _id, status: { $ne: 'scheduled' } },
{ $set: { status: 'scheduled' }, $unset: { expiresAt } })` — a conditional
write that fires for any status other than `scheduled`. -/
def verifyStep3 (w : World) (s : StripeSession) : World × List Effect :=
  match s.metaConsultationId with
  | none => (w, [])
  | some cid =>
    match w.consultations.find? (fun c => c.id == cid) with
    | some c =>
      if c.status ≠ CStatus.scheduled then
        (w.updateConsultation cid (fun x =>
          { x with status := CStatus.scheduled, expiresAt := none }),
         [Effect.consultationWrite cid])
      else (w, [])
    | none => (w, [])

/-- Response data of `POST /verify-checkout-session`. -/
structure VerifyData where
  paid : Bool
  invoiceUrl : Option String
  deriving DecidableEq

/-- Handler of `POST /verify-checkout-session` (payment.js lines 192-311), after the
session has been retrieved from Stripe: when the session is paid, run the
three finalization blocks in order and re-fetch the payment's invoice URL for
the response; when unpaid, nothing is written. -/
def verifyCheckoutSession (w : World) (now : Int) (s : StripeSession) :
    Outcome VerifyData :=
  if s.paymentStatus = "paid" then
    let r1 := verifyStep1 w s
    let r2 := verifyStep2 r1.1 now s r1.2.2
    let r3 := verifyStep3 r2.1 s
    ⟨r3.1, r1.2.1 ++ r2.2 ++ r3.2,
     { paid := true,
       invoiceUrl :=
         match s.metaPaymentId with
         | some pid =>
           match r3.1.payments.find? (fun p => p.id == pid) with
           | some p => p.invoiceUrl
           | none => none
         | none => none }⟩
  else ⟨w, [], { paid := false, invoiceUrl := none }⟩

/-- The Stripe events `POST /webhook` dispatches on. -/
inductive WebhookEvent
  | paymentIntentSucceeded (intentId : String)
  | paymentIntentFailed (intentId : String)
  | checkoutSessionCompleted (s : StripeSession)
  | otherEvent (t : String)
  deriving DecidableEq

/-- Responses of `POST /webhook`. -/
inductive WebhookResult
  | sigError
  | received
  deriving DecidableEq

/-- Handler of `POST /webhook` (payment.js lines 22-55): `stripe.webhooks.constructEvent`
verifies the signature first — modelled by the `sigValid` flag — and a failed
verification returns a 400 before any event handling; otherwise dispatch on
the event type. -/
def webhook (w : World) (now : Int) (sigValid : Bool) (ev : WebhookEvent) :
    Outcome WebhookResult :=
  if sigValid = false then ⟨w, [], .sigError⟩
  else
    match ev with
    | .paymentIntentSucceeded i =>
      let o := handlePaymentSuccess w i
      ⟨o.world, o.effects, .received⟩
    | .paymentIntentFailed i =>
      let o := handlePaymentFailure w i
      ⟨o.world, o.effects, .received⟩
    | .checkoutSessionCompleted s =>
      let o := handleCheckoutSessionCompleted w now s
      ⟨o.world, o.effects, .received⟩
    | .otherEvent _ => ⟨w, [], .received⟩

-- ============================================================
-- Confirm-booking and edit (src/unnamed/part_006 lines 250-325 and 544-661)
-- ============================================================

/-- Responses of the public `PATCH /:id/confirm-booking`. -/
inductive ConfirmResult
  | notFound
  | emailMismatch
  | paymentNotCompleted
  | cancelledState
  | serverError
  | ok
  deriving DecidableEq

/-- Public `PATCH /:id/confirm-booking` (part_006 lines 250-325): verify the
owner's e-mail, reject `pending_payment` ("Payment not completed yet") and
`cancelled`, and set every other status to `scheduled`. -/
def confirmBooking (w : World) (cid : Nat) (email : String) :
    Outcome ConfirmResult :=
  match w.consultations.find? (fun c => c.id == cid) with
  | none => ⟨w, [], .notFound⟩
  | some c =>
    match w.users.find? (fun u => u.id == c.clientId) with
    | none => ⟨w, [], .serverError⟩
    | some u =>
      if u.email ≠ email then ⟨w, [], .emailMismatch⟩
      else if c.status = CStatus.pendingPayment then ⟨w, [], .paymentNotCompleted⟩
      else if c.status = CStatus.cancelled then ⟨w, [], .cancelledState⟩
      else
        ⟨w.updateConsultation cid (fun x => { x with status := CStatus.scheduled }),
         [Effect.consultationWrite cid,
          Effect.emailSent "consultation-confirmation"], .ok⟩

/-- Fallback in the style of `duration || consultation.duration`: JavaScript fallback (0 is falsy). -/
def jsOrInt (o : Option Int) (d : Int) : Int :=
  match o with
  | some v => if v = 0 then d else v
  | none => d

/-- Fallback in the style of `rescheduleReason || 'Schedule updated'` ('' is falsy). -/
def jsOrStr (o : Option String) (d : String) : String :=
  match o with
  | some v => if v = "" then d else v
  | none => d

/-- A new slot supplied to `PATCH /:id/edit`: the raw `preferredDate` and
`preferredTime` strings plus the timestamp `new Date(...)` parses them to. -/
structure EditSlot where
  dateStr : String
  timeStr : String
  ts : Int
  deriving DecidableEq

/-- Body of `PATCH /:id/edit`.  `notes` distinguishes "absent" from "present
with value" because the handler tests `notes !== undefined`. -/
structure EditRequest where
  newSlot : Option EditSlot := none
  duration : Option Int := none
  method : Option String := none
  ctype : Option String := none
  notes : Option (Option String) := none
  meetingLink : Option String := none
  rescheduleReason : Option String := none
  deriving DecidableEq

/-- Responses of `PATCH /:id/edit`. -/
inductive EditResult
  | notFound
  | cannotEdit
  | badDate
  | badTime
  | pastDate
  | slotUnavailable
  | ok
  deriving DecidableEq

/-- The non-reschedule field updates of `PATCH /:id/edit`, in program order
(each guarded by JavaScript truthiness, `notes` by `!== undefined`). -/
def applyFieldEdits (rq : EditRequest) (x0 : Consultation) : Consultation :=
  let x1 := match rq.duration with
    | some d => if d = 0 then x0 else { x0 with duration := d }
    | none => x0
  let x2 := match rq.method with
    | some m => if m = "" then x1 else { x1 with method := m }
    | none => x1
  let x3 := match rq.ctype with
    | some t => if t = "" then x2 else { x2 with ctype := t }
    | none => x2
  let x4 := match rq.notes with
    | some n => { x3 with notes := n }
    | none => x3
  match rq.meetingLink with
  | some m => if m = "" then x4 else { x4 with meetingLink := m }
  | none => x4

/-- Handler of `PATCH /:id/edit` (part_006 lines 544-661): refuse terminal consultations;
when a new date/time is supplied, validate it, require the new slot to pass
`isSlotAvailable`, and on success record `rescheduledFrom`, a reschedule
reason, the new `scheduledDate` and status `rescheduled`; other fields are
updated by truthiness. -/
def editConsultation (w : World) (now : Int) (cid : Nat) (rq : EditRequest) :
    Outcome EditResult :=
  match w.consultations.find? (fun c => c.id == cid) with
  | none => ⟨w, [], .notFound⟩
  | some c =>
    if c.status = CStatus.completed ∨ c.status = CStatus.cancelled then
      ⟨w, [], .cannotEdit⟩
    else
      match rq.newSlot with
      | none =>
        ⟨w.updateConsultation cid (fun x => applyFieldEdits rq x),
         [Effect.consultationWrite cid], .ok⟩
      | some slot =>
        if dateFormatOk slot.dateStr = false then ⟨w, [], .badDate⟩
        else if timeFormatOk slot.timeStr = false then ⟨w, [], .badTime⟩
        else if slot.ts < now then ⟨w, [], .pastDate⟩
        else if isSlotAvailable w.consultations slot.ts
            (slot.ts + jsOrInt rq.duration c.duration * 60000) = false then
          ⟨w, [], .slotUnavailable⟩
        else
          ⟨w.updateConsultation cid (fun x =>
             { applyFieldEdits rq
                 { x with rescheduledFrom := some x.id,
                          rescheduleReason :=
                            some (jsOrStr rq.rescheduleReason "Schedule updated"),
                          scheduledDate := slot.ts } with
               status := CStatus.rescheduled }),
           [Effect.consultationWrite cid], .ok⟩

-- ============================================================
-- create-consultation-payment (src/routes/payment.js lines 61-188)
-- ============================================================

/-- JavaScript `.toLowerCase()` as used for the case-insensitive e-mail
comparison. -/
def toLowerStr (s : String) : String := ⟨s.toList.map Char.toLower⟩

/-- Regex `^[^\s@]+@[^\s@]+\.[^\s@]+$`: exactly one `@`; a nonempty
whitespace-free local part; a nonempty whitespace-free domain containing a
dot that is neither its first nor its last character. -/
def emailFormatOk (s : String) : Bool :=
  match s.toList.splitOn '@' with
  | [l, r] =>
    !l.isEmpty && l.all (fun c => !c.isWhitespace) &&
      !r.isEmpty && r.all (fun c => !c.isWhitespace) &&
      (r.drop 1).dropLast.contains '.'
  | _ => false

/-- JavaScript `Math.round` on the nonnegative amounts this endpoint accepts:
round half up. -/
def jsRound (q : ℚ) : ℤ := ⌊q + 1 / 2⌋

/-- Body of `POST /create-consultation-payment`. -/
structure CreatePayRequest where
  consultationId : Option Nat := none
  paymentId : Option Nat := none
  amount : Option ℚ := none
  email : Option String := none
  deriving DecidableEq

/-- Responses of `POST /create-consultation-payment`; `ok` carries the Stripe
session id and the `unit_amount` (in cents) the checkout session was created
with. -/
inductive CreatePayResult
  | missingFields
  | badEmail
  | badAmount
  | consultationNotFound
  | emailMismatch
  | notPendingPayment
  | paymentNotFound
  | paymentProcessed
  | serverError
  | ok (sessionId : String) (unitAmount : ℤ)
  deriving DecidableEq

/-- Handler of `POST /create-consultation-payment` (payment.js lines 61-188): validate
presence, e-mail format and `0 < amount ≤ 10000`; check the consultation, its
owner's e-mail (case-insensitive) and `pending_payment` status; check the
payment exists and is `pending`; backfill `payment.consultationId` when
absent; create the checkout session with
`unit_amount = Math.round(amount * 100)` and store its id on the payment.
`sid` is the session id Stripe generates. -/
def createConsultationPayment (w : World) (sid : String) (rq : CreatePayRequest) :
    Outcome CreatePayResult :=
  match rq.consultationId, rq.paymentId, rq.amount, rq.email with
  | some cid, some pid, some amt, some em =>
    if amt = 0 ∨ em = "" then ⟨w, [], .missingFields⟩
    else if emailFormatOk em = false then ⟨w, [], .badEmail⟩
    else if amt ≤ 0 ∨ 10000 < amt then ⟨w, [], .badAmount⟩
    else
      match w.consultations.find? (fun c => c.id == cid) with
      | none => ⟨w, [], .consultationNotFound⟩
      | some c =>
        match w.users.find? (fun u => u.id == c.clientId) with
        | none => ⟨w, [], .serverError⟩
        | some u =>
          if toLowerStr u.email ≠ toLowerStr em then ⟨w, [], .emailMismatch⟩
          else if c.status ≠ CStatus.pendingPayment then
            ⟨w, [], .notPendingPayment⟩
          else
            match w.payments.find? (fun p => p.id == pid) with
            | none => ⟨w, [], .paymentNotFound⟩
            | some p =>
              if p.status ≠ PayStatus.pending then ⟨w, [], .paymentProcessed⟩
              else
                let step1 : World × List Effect :=
                  if p.consultationId = none then
                    (w.updatePayment pid
                       (fun q => { q with consultationId := some cid }),
                     [Effect.paymentWrite pid])
                  else (w, [])
                ⟨step1.1.updatePayment pid
                   (fun q => { q with transactionId := some sid }),
                 step1.2 ++ [Effect.paymentWrite pid],
                 .ok sid (jsRound (amt * 100))⟩
  | _, _, _, _ => ⟨w, [], .missingFields⟩

/-- Replace the stored amount of a payment, leaving everything else intact. -/
def World.setPaymentAmount (w : World) (pid : Nat) (a : ℚ) : World :=
  w.updatePayment pid (fun q => { q with amount := a })

/-- A payment completed through the checkout flow, as the webhook and verify
handlers would find it. -/
def pDoneTx : Payment :=
  { id := 1, clientId := 1, amount := 50, ptype := .consultationFee,
    status := .completed, transactionId := some "pi_1" }

/-- A world whose only payment is already completed. -/
def w3c : World := { payments := [pDoneTx] }

/-- A paid checkout session for the completed payment of `w3c`. -/
def s3w : StripeSession :=
  { id := "cs_9", paymentStatus := "paid", metaType := some "consultation_fee",
    metaPaymentId := some 1 }

/-- A consultation-fee payment that the first confirmation delivery completed. -/
def pPaid1 : Payment :=
  { id := 1, clientId := 7, consultationId := some 2, amount := 50,
    ptype := .consultationFee, status := .completed,
    transactionId := some "cs_1", gatewayReference := some "pi_9" }

/-- The consultation the first confirmation delivery scheduled. -/
def cSched2 : Consultation :=
  { id := 2, clientId := 7, scheduledDate := 36000000, method := "zoom",
    status := .scheduled, paymentId := some 1 }

/-- The booking client. -/
def uClient7 : UserRec := { id := 7, email := "jane@example.com" }

/-- The state after the first successful confirmation delivery. -/
def w1c : World :=
  { users := [uClient7], consultations := [cSched2], payments := [pPaid1] }

/-- The same successful checkout session, delivered again. -/
def sFee1 : StripeSession :=
  { id := "cs_1", paymentStatus := "paid", paymentIntent := some "pi_9",
    metaType := some "consultation_fee", metaPaymentId := some 1,
    metaConsultationId := some 2, metaClientEmail := some "jane@example.com" }

/-- A cancelled (terminal) consultation. -/
def cCancelled5 : Consultation :=
  { id := 5, clientId := 1, scheduledDate := 100000, method := "zoom",
    status := .cancelled }

/-- A paid session whose metadata points at the cancelled consultation. -/
def sVerify5 : StripeSession :=
  { id := "cs_5", paymentStatus := "paid", metaConsultationId := some 5 }

/-- A world holding only the cancelled consultation. -/
def w6c : World := { consultations := [cCancelled5] }

/-- The cancelled consultation's client. -/
def uKim1 : UserRec := { id := 1, email := "kim@example.com" }

/-- A consultation-fee payment correlated with the cancelled consultation. -/
def pFee30 : Payment :=
  { id := 30, clientId := 1, consultationId := some 5, amount := 50,
    ptype := .consultationFee, status := .completed,
    transactionId := some "cs_6" }

/-- A paid consultation-fee session whose metadata points at the cancelled
consultation and its payment. -/
def sFee6 : StripeSession :=
  { id := "cs_6", paymentStatus := "paid", metaType := some "consultation_fee",
    metaPaymentId := some 30, metaConsultationId := some 5 }

/-- World for the C6 witness: a cancelled consultation, its client and its
payment. -/
def w6w : World :=
  { users := [uKim1], consultations := [cCancelled5], payments := [pFee30] }

/-- The scheduled consultation an adviser is about to move. -/
def cSchedEdit : Consultation :=
  { id := 1, clientId := 1, scheduledDate := 36000000, method := "zoom",
    status := .scheduled }

/-- An unexpired hold occupying the 20:00 target window. -/
def cHoldOccupant : Consultation :=
  { id := 2, clientId := 3, scheduledDate := 72000000, method := "zoom",
    status := .pendingPayment, expiresAt := some 100000000 }

/-- A world with the scheduled booking and the competing hold. -/
def w9c : World := { consultations := [cSchedEdit, cHoldOccupant] }

/-- An edit moving consultation 1 into the slot held by consultation 2. -/
def rq9 : EditRequest :=
  { newSlot := some { dateStr := "2025-03-01", timeStr := "20:00",
                      ts := 72000000 } }

/-- A confirmed consultation more than 24 hours away. -/
def cSched48h : Consultation :=
  { id := 10, clientId := 1, scheduledDate := 200000000, method := "zoom",
    status := .scheduled, paymentId := some 20 }

/-- Its completed consultation-fee payment. -/
def pCompleted20 : Payment :=
  { id := 20, clientId := 1, amount := 50, ptype := .consultationFee,
    status := .completed }

/-- World for the refund-policy witness. -/
def w7c : World :=
  { consultations := [cSched48h], payments := [pCompleted20] }

/-- A hold waiting for its consultation fee, for the C10 witness. -/
def cPend10 : Consultation :=
  { id := 10, clientId := 7, scheduledDate := 3600000, method := "zoom",
    status := .pendingPayment, paymentId := some 20 }

/-- Its pending 50-USD payment record. -/
def pPend20 : Payment :=
  { id := 20, clientId := 7, amount := 50, ptype := .consultationFee,
    status := .pending }

/-- World for the C10 witness: the stored fee is 50, the request will pay
999. -/
def w10c : World :=
  { users := [uClient7], consultations := [cPend10], payments := [pPend20] }

-- ============================================================
-- Theorems
-- ============================================================

/-- Running `find?` through an id-respecting conditional map: the first match is the
updated first match of the original list. -/
theorem find?_updateWhere {α : Type} (l : List α) (pr : α → Bool) (f : α → α)
    (hpr : ∀ a, pr (f a) = pr a) :
    (updateWhere l pr f).find? pr = (l.find? pr).map f := by
  induction l with
  | nil => rfl
  | cons a t ih =>
    simp only [updateWhere, List.map_cons]
    by_cases h : pr a = true
    · rw [if_pos h, List.find?_cons_of_pos _ ((hpr a).trans h),
        List.find?_cons_of_pos _ h, Option.map_some']
    · rw [if_neg h, List.find?_cons_of_neg _ (by simpa using h),
        List.find?_cons_of_neg _ (by simpa using h)]
      exact ih

/-- C4 counterexample: the slot held by an unexpired `pending_payment` booking
is reported as available by `isSlotAvailable`, while the spec's contract calls
it occupied — the claimed equivalence fails on this input. -/
theorem c4_counterexample :
    isSlotAvailable [holdAtTen] 36000000 39600000 = true ∧
      slotFreeSpec 0 [holdAtTen] 36000000 39600000 = false := by
  constructor <;> rfl

/-- C4 amended: `isSlotAvailable(start, end)` returns true iff no existing
consultation whose status is `scheduled` (confirmed) or `completed` has its
`scheduledDate` in the half-open interval `[start, end)`; `pending_payment`
holds — expired or not — never make a slot unavailable. -/
theorem c4_isSlotAvailable_spec (cs : List Consultation) (s e : Int) :
    isSlotAvailable cs s e = true ↔
      ∀ c ∈ cs, (c.status = CStatus.scheduled ∨ c.status = CStatus.completed) →
        ¬(s ≤ c.scheduledDate ∧ c.scheduledDate < e) := by
  simp only [isSlotAvailable, Bool.not_eq_true', List.any_eq_false, Bool.and_eq_true,
    Bool.or_eq_true, beq_iff_eq, decide_eq_true_eq, not_and]
  constructor
  · intro h c hc
    have := h c hc
    tauto
  · intro h c hc
    have := h c hc
    tauto

/-- C2 counterexample: booking the same future slot twice in sequence succeeds
both times — the availability check ignores `pending_payment` holds and no
schema index is declared unique, so the reachable state holds two active
(hold/confirmed) consultations in one time window and neither caller received
a `SlotConflict`. -/
theorem c2_counterexample :
    (book emptyWorld 0 30 rqZoom 3600000).result = BookResult.created 1 2 ∧
    (book (book emptyWorld 0 30 rqZoom 3600000).world 0 30 rqZoom
        3600000).result = BookResult.created 3 4 ∧
    ((book (book emptyWorld 0 30 rqZoom 3600000).world 0 30 rqZoom
        3600000).world.consultations.countP fun c =>
      (c.status == CStatus.pendingPayment || c.status == CStatus.scheduled) &&
        decide (3600000 ≤ c.scheduledDate) && decide (c.scheduledDate < 7200000))
      = 2 ∧
    consultationIndexes.all (fun i => !i.unique) = true := by
  refine ⟨rfl, rfl, rfl, rfl⟩

/-- C2 amended: slot exclusion is enforced only by the advisory availability
check — a validated `book()` call is refused with the 409 `SLOT_UNAVAILABLE`
conflict iff a consultation with status `scheduled` or `completed` already sits
in the requested window; the schema declares no unique index, so nothing at the
persistence layer prevents two racing (or even sequential) bookings of the same
slot from both succeeding as `pending_payment` holds. -/
theorem c2_slot_check_advisory (w : World) (now hm : Int) (rq : BookRequest)
    (sched : Int)
    (hreq : ¬(rq.clientEmail = "" ∨ rq.clientName = "" ∨ rq.preferredDate = "" ∨
      rq.preferredTime = "" ∨ rq.method = ""))
    (hd : dateFormatOk rq.preferredDate = true)
    (ht : timeFormatOk rq.preferredTime = true)
    (hmv : validMethods.contains (methodNormalize rq.method) = true)
    (hnow : ¬ sched < now) :
    ((book w now hm rq sched).result = BookResult.slotUnavailable ↔
      isSlotAvailable w.consultations sched (sched + SLOT_DURATION * 60000)
        = false) ∧
    consultationIndexes.all (fun i => !i.unique) = true := by
  refine ⟨?_, rfl⟩
  unfold book
  rw [if_neg hreq, if_neg (by simp [hd]), if_neg (by simp [ht]),
    if_neg (by rw [hmv]; simp), if_neg hnow]
  by_cases hav : isSlotAvailable w.consultations sched
      (sched + SLOT_DURATION * 60000) = false
  · rw [if_pos hav]
    simpa using hav
  · rw [if_neg hav]
    constructor
    · intro hres
      cases hfind : w.users.find? (fun u => u.email == rq.clientEmail) <;>
        simp [hfind, bookFinish] at hres
    · intro h
      exact absurd h hav

theorem c2_slot_check_advisory_witness :
    ((book emptyWorld 0 30 rqZoom 3600000).result = BookResult.slotUnavailable ↔
      isSlotAvailable emptyWorld.consultations 3600000
        (3600000 + SLOT_DURATION * 60000) = false) ∧
    consultationIndexes.all (fun i => !i.unique) = true :=
  c2_slot_check_advisory emptyWorld 0 30 rqZoom 3600000 (by decide) rfl rfl rfl
    (by decide)

/-- C5 counterexample: after a successful booking the consultation points to
the payment, but the created payment record carries no `consultationId` — the
two records are not linked to each other, only one way. -/
theorem c5_counterexample :
    ((book emptyWorld 0 30 rqZoom 3600000).world.payments.find?
        (fun p => p.id == 2)).map Payment.consultationId = some none ∧
    ((book emptyWorld 0 30 rqZoom 3600000).world.consultations.find?
        (fun c => c.id == 1)).map Consultation.paymentId = some (some 2) :=
  ⟨rfl, rfl⟩

/-- What `bookFinish` creates: the `created` response, the `pending_payment`
consultation with its TTL expiry and payment link, and the `pending` payment
for the fixed fee with no consultation back-reference. -/
theorem bookFinish_spec (w1 : World) (clientId : Nat) (e1 : List Effect)
    (now hm sched : Int) (rq : BookRequest) :
    (bookFinish w1 clientId e1 now hm sched rq).result =
        BookResult.created w1.fresh (w1.fresh + 1) ∧
    (bookFinish w1 clientId e1 now hm sched rq).world.consultations.find?
        (fun c => c.id == w1.fresh) = some
      { id := w1.fresh, clientId := clientId, scheduledDate := sched,
        duration := SLOT_DURATION, method := methodNormalize rq.method,
        status := CStatus.pendingPayment, notes := rq.message,
        paymentId := some (w1.fresh + 1),
        expiresAt := some (now + hm * 60 * 1000) } ∧
    (bookFinish w1 clientId e1 now hm sched rq).world.payments.find?
        (fun p => p.id == w1.fresh + 1) = some
      { id := w1.fresh + 1, clientId := clientId, ptype := PayType.consultationFee,
        amount := CONSULTATION_FEE, currency := "USD", status := PayStatus.pending,
        consultationId := none,
        notes := some ("Consultation fee for " ++ rq.preferredDate ++ " at " ++
          rq.preferredTime) } := by
  refine ⟨rfl, ?_, ?_⟩
  · simp [bookFinish, World.updateConsultation, updateWhere, List.find?]
  · simp [bookFinish, World.updateConsultation, List.find?]

/-- C5 amended: a valid booking creates the Consultation in hold
(`pending_payment`) status with `expiresAt = now + HOLD_MINUTES` minutes and a
linked `pending` Payment for the fixed 50-USD consultation fee; the
consultation is linked to the payment (`paymentId`), but the payment's
`consultationId` back-reference is left unset at booking time (it is only
backfilled later by `create-consultation-payment`); once `expiresAt` has
passed, the TTL index's reap removes the hold. -/
theorem c5_book_hold (w : World) (now hm : Int) (rq : BookRequest) (sched : Int)
    (hreq : ¬(rq.clientEmail = "" ∨ rq.clientName = "" ∨ rq.preferredDate = "" ∨
      rq.preferredTime = "" ∨ rq.method = ""))
    (hd : dateFormatOk rq.preferredDate = true)
    (ht : timeFormatOk rq.preferredTime = true)
    (hmv : validMethods.contains (methodNormalize rq.method) = true)
    (hnow : ¬ sched < now)
    (hav : isSlotAvailable w.consultations sched (sched + SLOT_DURATION * 60000)
      = true) :
    ∃ uid cid pid,
      (book w now hm rq sched).result = BookResult.created cid pid ∧
      (book w now hm rq sched).world.consultations.find? (fun c => c.id == cid) =
        some { id := cid, clientId := uid, scheduledDate := sched,
               duration := SLOT_DURATION, method := methodNormalize rq.method,
               status := CStatus.pendingPayment, notes := rq.message,
               paymentId := some pid,
               expiresAt := some (now + hm * 60 * 1000) } ∧
      (book w now hm rq sched).world.payments.find? (fun p => p.id == pid) =
        some { id := pid, clientId := uid, ptype := PayType.consultationFee,
               amount := CONSULTATION_FEE, currency := "USD",
               status := PayStatus.pending, consultationId := none,
               notes := some ("Consultation fee for " ++ rq.preferredDate ++
                 " at " ++ rq.preferredTime) } ∧
      ∀ t : Int, now + hm * 60 * 1000 ≤ t →
        { id := cid, clientId := uid, scheduledDate := sched,
          duration := SLOT_DURATION, method := methodNormalize rq.method,
          status := CStatus.pendingPayment, notes := rq.message,
          paymentId := some pid,
          expiresAt := some (now + hm * 60 * 1000) } ∉
            ttlReap t (book w now hm rq sched).world.consultations := by
  unfold book
  rw [if_neg hreq, if_neg (by simp [hd]), if_neg (by simp [ht]),
    if_neg (by rw [hmv]; simp), if_neg hnow, if_neg (by rw [hav]; simp)]
  cases hfind : w.users.find? (fun u => u.email == rq.clientEmail) with
  | some u =>
      simp only [hfind]
      obtain ⟨h1, h2, h3⟩ := bookFinish_spec w u.id [] now hm sched rq
      refine ⟨u.id, w.fresh, w.fresh + 1, h1, h2, h3, ?_⟩
      intro t ht' hmem
      rw [ttlReap, List.mem_filter] at hmem
      have := hmem.2
      simp only [decide_eq_true_eq] at this
      omega
  | none =>
      simp only [hfind]
      obtain ⟨h1, h2, h3⟩ := bookFinish_spec
        { w with users := { id := w.fresh, email := rq.clientEmail } :: w.users,
                 fresh := w.fresh + 1 }
        w.fresh [Effect.userWrite w.fresh] now hm sched rq
      refine ⟨w.fresh, w.fresh + 1, w.fresh + 1 + 1, h1, h2, h3, ?_⟩
      intro t ht' hmem
      rw [ttlReap, List.mem_filter] at hmem
      have := hmem.2
      simp only [decide_eq_true_eq] at this
      omega

theorem c5_book_hold_witness :
    ∃ uid cid pid,
      (book emptyWorld 0 30 rqZoom 3600000).result = BookResult.created cid pid ∧
      (book emptyWorld 0 30 rqZoom 3600000).world.consultations.find?
          (fun c => c.id == cid) =
        some { id := cid, clientId := uid, scheduledDate := 3600000,
               duration := SLOT_DURATION, method := methodNormalize rqZoom.method,
               status := CStatus.pendingPayment, notes := rqZoom.message,
               paymentId := some pid,
               expiresAt := some (0 + 30 * 60 * 1000) } ∧
      (book emptyWorld 0 30 rqZoom 3600000).world.payments.find?
          (fun p => p.id == pid) =
        some { id := pid, clientId := uid, ptype := PayType.consultationFee,
               amount := CONSULTATION_FEE, currency := "USD",
               status := PayStatus.pending, consultationId := none,
               notes := some ("Consultation fee for " ++ rqZoom.preferredDate ++
                 " at " ++ rqZoom.preferredTime) } ∧
      ∀ t : Int, 0 + 30 * 60 * 1000 ≤ t →
        { id := cid, clientId := uid, scheduledDate := 3600000,
          duration := SLOT_DURATION, method := methodNormalize rqZoom.method,
          status := CStatus.pendingPayment, notes := rqZoom.message,
          paymentId := some pid,
          expiresAt := some (0 + 30 * 60 * 1000) } ∉
            ttlReap t (book emptyWorld 0 30 rqZoom 3600000).world.consultations :=
  c5_book_hold emptyWorld 0 30 rqZoom 3600000 (by decide) rfl rfl rfl (by decide)
    rfl

/-- The handler's `hoursUntilConsultation > 24` test in milliseconds. -/
theorem canRefund_iff (a b : Int) :
    ((24 : ℚ) < ((a - b : Int) : ℚ) / (1000 * 60 * 60)) ↔ 86400000 < a - b := by
  rw [lt_div_iff₀ (by norm_num : (0:ℚ) < 1000 * 60 * 60)]
  norm_num
  exact_mod_cast Iff.rfl

@[simp] theorem updatePayment_payments (w : World) (pid : Nat)
    (f : Payment → Payment) :
    (w.updatePayment pid f).payments =
      updateWhere w.payments (fun p => p.id == pid) f := rfl

@[simp] theorem updatePayment_consultations (w : World) (pid : Nat)
    (f : Payment → Payment) :
    (w.updatePayment pid f).consultations = w.consultations := rfl

@[simp] theorem updateConsultation_consultations (w : World) (cid : Nat)
    (f : Consultation → Consultation) :
    (w.updateConsultation cid f).consultations =
      updateWhere w.consultations (fun c => c.id == cid) f := rfl

@[simp] theorem updateConsultation_payments (w : World) (cid : Nat)
    (f : Consultation → Consultation) :
    (w.updateConsultation cid f).payments = w.payments := rfl

theorem consStatusOf_updatePayment (w : World) (pid cid : Nat)
    (f : Payment → Payment) :
    World.consStatusOf (w.updatePayment pid f) cid = World.consStatusOf w cid :=
  rfl

theorem payStatusOf_updateConsultation (w : World) (cid pid : Nat)
    (f : Consultation → Consultation) :
    World.payStatusOf (w.updateConsultation cid f) pid = World.payStatusOf w pid :=
  rfl

/-- Setting a consultation's status through `updateConsultation` is observed
by `consStatusOf`. -/
theorem consStatusOf_after (w : World) (cid : Nat) (c : Consultation)
    (hc : w.consultations.find? (fun x => x.id == cid) = some c) (st : CStatus) :
    World.consStatusOf (w.updateConsultation cid
      (fun x => { x with status := st })) cid = some st := by
  unfold World.consStatusOf
  rw [updateConsultation_consultations,
    find?_updateWhere w.consultations (fun x => x.id == cid)
      (fun x => { x with status := st }) (fun a => rfl), hc]
  rfl

/-- Setting a payment's status through `updatePayment` is observed by
`payStatusOf`. -/
theorem payStatusOf_after (w : World) (pid : Nat) (p : Payment)
    (hp : w.payments.find? (fun x => x.id == pid) = some p) (st : PayStatus) :
    World.payStatusOf (w.updatePayment pid
      (fun q => { q with status := st })) pid = some st := by
  unfold World.payStatusOf
  rw [updatePayment_payments,
    find?_updateWhere w.payments (fun x => x.id == pid)
      (fun q => { q with status := st }) (fun a => rfl), hp]
  rfl

/-- C7 confirmed: when an authorized caller cancels a cancellable consultation
whose linked payment is `completed`, the consultation becomes `cancelled`, and
the payment becomes `refunded` iff the cancellation happens strictly more than
24 hours (86400000 ms) before the scheduled start; otherwise the payment stays
`completed`. -/
theorem c7_refund_policy (w : World) (now : Int) (actorId : Nat) (role : String)
    (cid pid : Nat) (c : Consultation) (p : Payment)
    (hc : w.consultations.find? (fun x => x.id == cid) = some c)
    (hauth : c.clientId = actorId ∨ role = "admin" ∨ role = "adviser")
    (hstat : c.status = CStatus.scheduled ∨ c.status = CStatus.pendingPayment)
    (hlink : c.paymentId = some pid)
    (hp : w.payments.find? (fun x => x.id == pid) = some p)
    (hps : p.status = PayStatus.completed) :
    World.consStatusOf (cancel w now actorId role cid).world cid =
        some CStatus.cancelled ∧
    (World.payStatusOf (cancel w now actorId role cid).world pid =
        some PayStatus.refunded ↔ 86400000 < c.scheduledDate - now) ∧
    (c.scheduledDate - now ≤ 86400000 →
      World.payStatusOf (cancel w now actorId role cid).world pid =
        some PayStatus.completed) := by
  have hpw : World.payStatusOf w pid = some p.status := by
    unfold World.payStatusOf
    rw [hp]
    rfl
  unfold cancel
  simp only [hc]
  rw [if_neg (by tauto), if_neg (not_not_intro hstat), hlink]
  by_cases hr : (24 : ℚ) < ((c.scheduledDate - now : Int) : ℚ) / (1000 * 60 * 60)
  · simp only [decide_eq_true hr]
    have hp1 : (w.updateConsultation cid
        (fun x => { x with status := CStatus.cancelled })).payments.find?
        (fun x => x.id == pid) = some p := by
      rw [updateConsultation_payments]
      exact hp
    simp only [hp1, if_pos hps]
    refine ⟨?_, ?_, ?_⟩
    · rw [consStatusOf_updatePayment]
      exact consStatusOf_after w cid c hc CStatus.cancelled
    · rw [payStatusOf_after _ _ _ hp1 PayStatus.refunded]
      simp [(canRefund_iff c.scheduledDate now).mp hr]
    · intro hle
      exact absurd ((canRefund_iff c.scheduledDate now).mp hr) (by omega)
  · simp only [decide_eq_false hr]
    have hnr : ¬ 86400000 < c.scheduledDate - now := fun h =>
      hr ((canRefund_iff c.scheduledDate now).mpr h)
    refine ⟨consStatusOf_after w cid c hc CStatus.cancelled, ?_, ?_⟩
    · rw [payStatusOf_updateConsultation, hpw, hps]
      simp [hnr]
    · intro _
      rw [payStatusOf_updateConsultation, hpw, hps]

-- ============================================================
-- Further projection and invariance helpers
-- ============================================================

@[simp] theorem updateApplication_payments (w : World) (aid : Nat)
    (f : Application → Application) :
    (w.updateApplication aid f).payments = w.payments := rfl

@[simp] theorem updateApplication_consultations (w : World) (aid : Nat)
    (f : Application → Application) :
    (w.updateApplication aid f).consultations = w.consultations := rfl

@[simp] theorem updateApplication_users (w : World) (aid : Nat)
    (f : Application → Application) :
    (w.updateApplication aid f).users = w.users := rfl

@[simp] theorem updateConsultation_users (w : World) (cid : Nat)
    (f : Consultation → Consultation) :
    (w.updateConsultation cid f).users = w.users := rfl

@[simp] theorem updatePayment_users (w : World) (pid : Nat)
    (f : Payment → Payment) :
    (w.updatePayment pid f).users = w.users := rfl

@[simp] theorem updatePayment_applications (w : World) (pid : Nat)
    (f : Payment → Payment) :
    (w.updatePayment pid f).applications = w.applications := rfl

@[simp] theorem updateConsultation_applications (w : World) (cid : Nat)
    (f : Consultation → Consultation) :
    (w.updateConsultation cid f).applications = w.applications := rfl

theorem payStatusOf_updateApplication (w : World) (aid pid : Nat)
    (f : Application → Application) :
    World.payStatusOf (w.updateApplication aid f) pid = World.payStatusOf w pid :=
  rfl

/-- The observed status of the first payment matching `pr` is untouched by a
conditional update whose `f` changes neither matching nor status. -/
theorem find?_map_status_updateWhere (l : List Payment) (pr pr2 : Payment → Bool)
    (f : Payment → Payment) (hpr : ∀ a, pr (f a) = pr a)
    (hst : ∀ a, (f a).status = a.status) :
    ((updateWhere l pr2 f).find? pr).map Payment.status =
      (l.find? pr).map Payment.status := by
  induction l with
  | nil => rfl
  | cons a t ih =>
    simp only [updateWhere, List.map_cons]
    by_cases h2 : pr2 a = true
    · rw [if_pos h2]
      by_cases h : pr a = true
      · rw [List.find?_cons_of_pos _ ((hpr a).trans h), List.find?_cons_of_pos _ h,
          Option.map_some', Option.map_some', hst]
      · rw [List.find?_cons_of_neg _ (by rw [hpr a]; simpa using h),
          List.find?_cons_of_neg _ (by simpa using h)]
        exact ih
    · rw [if_neg h2]
      by_cases h : pr a = true
      · rw [List.find?_cons_of_pos _ h, List.find?_cons_of_pos _ h]
      · rw [List.find?_cons_of_neg _ (by simpa using h),
          List.find?_cons_of_neg _ (by simpa using h)]
        exact ih

/-- A payment write that changes neither ids nor statuses leaves every
observed payment status unchanged. -/
theorem payStatusOf_updatePayment_keep (w : World) (x pid : Nat)
    (f : Payment → Payment) (hfid : ∀ q, (f q).id = q.id)
    (hst : ∀ q, (f q).status = q.status) :
    World.payStatusOf (w.updatePayment x f) pid = World.payStatusOf w pid := by
  unfold World.payStatusOf
  rw [updatePayment_payments]
  exact find?_map_status_updateWhere w.payments (fun q => q.id == pid)
    (fun q => q.id == x) f (fun a => by simp [hfid a]) hst

/-- Updating the payment with a given id sets its observed status to that of
the rewritten record. -/
theorem payStatusOf_updatePayment_set (w : World) (pid : Nat) (p : Payment)
    (hp : w.payments.find? (fun x => x.id == pid) = some p)
    (f : Payment → Payment) (hfid : ∀ q, (f q).id = q.id) :
    World.payStatusOf (w.updatePayment pid f) pid = some (f p).status := by
  unfold World.payStatusOf
  rw [updatePayment_payments,
    find?_updateWhere w.payments (fun x => x.id == pid) f
      (fun a => by simp [hfid a]),
    hp]
  rfl

/-- The consultation-finalization block of verify never touches payments. -/
theorem payStatusOf_verifyStep3 (w : World) (s : StripeSession) (pid : Nat) :
    World.payStatusOf (verifyStep3 w s).1 pid = World.payStatusOf w pid := by
  cases hmc : s.metaConsultationId with
  | none => simp [verifyStep3, hmc]
  | some cid =>
    cases hfc : w.consultations.find? (fun c => c.id == cid) with
    | none => simp [verifyStep3, hmc, hfc]
    | some c =>
      by_cases hst : c.status = CStatus.scheduled
      · simp [verifyStep3, hmc, hfc, hst]
      · simp [verifyStep3, hmc, hfc, hst, payStatusOf_updateConsultation]

/-- Writing invoice fields onto a payment does not change any observed
status. -/
theorem payStatusOf_invoiceWrite (wa : World) (x pid : Nat) (inv : String) :
    World.payStatusOf (wa.updatePayment x (fun q =>
      { q with invoiceUrl := some ("https://invoices/" ++ inv),
               invoiceNumber := some inv })) pid =
      World.payStatusOf wa pid :=
  payStatusOf_updatePayment_keep wa x pid _ (fun _ => rfl) (fun _ => rfl)

/-- The application-stage advance never touches payments. -/
theorem payStatusOf_advanceDepositStage (w1 : World) (aid pid : Nat) :
    World.payStatusOf (advanceDepositStage w1 aid).1 pid =
      World.payStatusOf w1 pid := by
  cases hfa : w1.applications.find? (fun a => a.id == aid) with
  | none => simp [advanceDepositStage, hfa]
  | some a =>
    by_cases hstage : a.stage = "consultation"
    · simp [advanceDepositStage, hfa, hstage, payStatusOf_updateApplication]
    · simp [advanceDepositStage, hfa, hstage]

/-- The deposit block of verify can advance the application and write invoice
fields, but never changes any payment's status. -/
theorem payStatusOf_verifyStep2 (w : World) (now : Int) (s : StripeSession)
    (pOpt : Option Payment) (pid : Nat) :
    World.payStatusOf (verifyStep2 w now s pOpt).1 pid =
      World.payStatusOf w pid := by
  by_cases hdep : s.metaType = some "deposit"
  · cases hsa : s.metaApplicationId with
    | none => simp [verifyStep2, hdep, hsa]
    | some aid =>
      cases pOpt with
      | none => simp [verifyStep2, hdep, hsa, payStatusOf_advanceDepositStage]
      | some p1 =>
        by_cases hinv : p1.invoiceUrl = none
        · simp [verifyStep2, hdep, hsa, hinv, payStatusOf_invoiceWrite,
            payStatusOf_advanceDepositStage]
        · simp [verifyStep2, hdep, hsa, hinv, payStatusOf_advanceDepositStage]
  · simp [verifyStep2, hdep]

/-- C8 confirmed: a webhook request whose signature fails verification is
rejected with an error and performs no state change and no side effect, for
every database state and event payload. -/
theorem c8_invalid_signature_no_mutation (w : World) (now : Int)
    (ev : WebhookEvent) :
    (webhook w now false ev).world = w ∧ (webhook w now false ev).effects = [] ∧
    (webhook w now false ev).result = WebhookResult.sigError :=
  ⟨rfl, rfl, rfl⟩

/-- C3 counterexample: a late `payment_intent.payment_failed` webhook for a
payment that is already `completed` moves it to `failed` — the status write in
`handlePaymentFailure` is not conditioned on the current status, so a
completed payment does regress. -/
theorem c3_counterexample :
    World.payStatusOf w3c 1 = some PayStatus.completed ∧
    World.payStatusOf
        (webhook w3c 0 true (WebhookEvent.paymentIntentFailed "pi_1")).world 1 =
      some PayStatus.failed :=
  ⟨rfl, rfl⟩

/-- The unconditional `findByIdAndUpdate(..., { status: 'completed', ... })`
write leaves the payment observed `completed`. -/
theorem payStatusOf_completeWrite (w : World) (pid : Nat) (p : Payment)
    (hp : w.payments.find? (fun x => x.id == pid) = some p)
    (sid : String) (gref : Option String) :
    World.payStatusOf (w.updatePayment pid (fun q =>
      { q with status := PayStatus.completed, transactionId := some sid,
               gatewayReference := gref })) pid = some PayStatus.completed := by
  rw [payStatusOf_updatePayment_set w pid p hp
    (fun q => { q with status := PayStatus.completed,
                       transactionId := some sid,
                       gatewayReference := gref }) (fun q => rfl)]

/-- C3 amended: a `completed` payment is never regressed by the handlers whose
writes are conditioned on the current status — `handlePaymentSuccess` is a
strict no-op and the verify-session handler leaves the status `completed` —
and a repeated `checkout.session.completed` webhook merely rewrites
`completed`; but `handlePaymentFailure` writes `failed` unconditionally, so a
late `payment_intent.payment_failed` webhook does regress a completed payment
to `failed`. -/
theorem c3_completed_only_fails_by_failure_webhook (w : World) (now : Int)
    (pid : Nat) (p : Payment) (i : String) (s : StripeSession)
    (hp : w.payments.find? (fun x => x.id == pid) = some p)
    (hid : p.id = pid)
    (hps : p.status = PayStatus.completed)
    (hsp : s.metaPaymentId = some pid)
    (hfs : w.payments.find? (fun x =>
        x.transactionId == some i || x.gatewayReference == some i) = some p)
    (hff : w.payments.find? (fun x => x.transactionId == some i) = some p) :
    handlePaymentSuccess w i = ⟨w, [], ()⟩ ∧
    World.payStatusOf (verifyCheckoutSession w now s).world pid =
      some PayStatus.completed ∧
    World.payStatusOf (handleCheckoutSessionCompleted w now s).world pid =
      some PayStatus.completed ∧
    World.payStatusOf (handlePaymentFailure w i).world pid =
      some PayStatus.failed := by
  have hpw : World.payStatusOf w pid = some PayStatus.completed := by
    unfold World.payStatusOf
    rw [hp]
    simp [hps]
  refine ⟨?_, ?_, ?_, ?_⟩
  · simp [handlePaymentSuccess, hfs, hps]
  · have h1 : verifyStep1 w s = (w, [], some p) := by
      simp [verifyStep1, hsp, hp, hps]
    by_cases hpaid : s.paymentStatus = "paid"
    · simp only [verifyCheckoutSession, if_pos hpaid, h1]
      rw [payStatusOf_verifyStep3, payStatusOf_verifyStep2]
      exact hpw
    · simp only [verifyCheckoutSession, if_neg hpaid]
      exact hpw
  · by_cases hdep : s.metaType = some "deposit"
    · simp only [handleCheckoutSessionCompleted, if_pos hdep, hsp, hp]
      rw [payStatusOf_invoiceWrite]
      cases hsa : s.metaApplicationId with
      | none =>
        simp only []
        exact payStatusOf_completeWrite w pid p hp s.id s.paymentIntent
      | some aid =>
        simp only []
        rw [payStatusOf_advanceDepositStage]
        exact payStatusOf_completeWrite w pid p hp s.id s.paymentIntent
    · simp only [handleCheckoutSessionCompleted, if_neg hdep, hsp, hp]
      cases hsc : s.metaConsultationId with
      | none =>
        simp only []
        exact payStatusOf_completeWrite w pid p hp s.id s.paymentIntent
      | some cid =>
        simp only [updatePayment_consultations]
        cases hfc : w.consultations.find? (fun c => c.id == cid) with
        | none =>
          simp only [hfc]
          exact payStatusOf_completeWrite w pid p hp s.id s.paymentIntent
        | some c =>
          simp only [hfc, updateConsultation_users, updatePayment_users]
          cases hfu : w.users.find? (fun u => u.id == c.clientId) with
          | none =>
            simp only [hfu]
            rw [payStatusOf_updateConsultation]
            exact payStatusOf_completeWrite w pid p hp s.id s.paymentIntent
          | some u =>
            simp only [hfu]
            rw [payStatusOf_updateConsultation]
            exact payStatusOf_completeWrite w pid p hp s.id s.paymentIntent
  · simp only [handlePaymentFailure, hff, hid]
    rw [payStatusOf_updatePayment_set w pid p hp
      (fun q => { q with status := PayStatus.failed }) (fun q => rfl)]

theorem c3_completed_only_fails_by_failure_webhook_witness :
    handlePaymentSuccess w3c "pi_1" = ⟨w3c, [], ()⟩ ∧
    World.payStatusOf (verifyCheckoutSession w3c 0 s3w).world 1 =
      some PayStatus.completed ∧
    World.payStatusOf (handleCheckoutSessionCompleted w3c 0 s3w).world 1 =
      some PayStatus.completed ∧
    World.payStatusOf (handlePaymentFailure w3c "pi_1").world 1 =
      some PayStatus.failed :=
  c3_completed_only_fails_by_failure_webhook w3c 0 1 pDoneTx "pi_1" s3w rfl rfl
    rfl rfl rfl rfl

/-- C1 counterexample: with the payment already `completed` (and the
consultation already `scheduled`), a second delivery of the same successful
confirmation via the webhook handler re-writes the payment, re-writes the
consultation and re-sends the confirmation e-mail — the claimed "zero
additional side effects" fails for the webhook path. -/
theorem c1_counterexample :
    World.payStatusOf w1c 1 = some PayStatus.completed ∧
    (webhook w1c 0 true (WebhookEvent.checkoutSessionCompleted sFee1)).effects =
      [Effect.paymentWrite 1, Effect.consultationWrite 2,
       Effect.emailSent "consultation-payment-confirmed"] :=
  ⟨rfl, rfl⟩

/-- C1 amended: once the Payment is `completed` and its consultation
`scheduled`, a second delivery of the same successful confirmation through the
verify-session handler performs zero additional side effects and leaves the
state unchanged; a second delivery through the webhook handler leaves the
final Payment status equal to the status after the first delivery
(`completed`) but does re-write the payment, re-write the consultation and
re-send the confirmation notification. -/
theorem c1_second_delivery (w : World) (now : Int) (pid cid : Nat)
    (p : Payment) (c : Consultation) (u : UserRec) (s : StripeSession)
    (hpaid : s.paymentStatus = "paid")
    (htype : s.metaType = some "consultation_fee")
    (hsp : s.metaPaymentId = some pid)
    (hsc : s.metaConsultationId = some cid)
    (hp : w.payments.find? (fun x => x.id == pid) = some p)
    (hps : p.status = PayStatus.completed)
    (hc : w.consultations.find? (fun x => x.id == cid) = some c)
    (hcs : c.status = CStatus.scheduled)
    (hu : w.users.find? (fun x => x.id == c.clientId) = some u) :
    (verifyCheckoutSession w now s).world = w ∧
    (verifyCheckoutSession w now s).effects = [] ∧
    (webhook w now true (WebhookEvent.checkoutSessionCompleted s)).effects =
      [Effect.paymentWrite pid, Effect.consultationWrite cid,
       Effect.emailSent "consultation-payment-confirmed"] ∧
    World.payStatusOf
        (webhook w now true (WebhookEvent.checkoutSessionCompleted s)).world
        pid = some PayStatus.completed := by
  have hdep : ¬ s.metaType = some "deposit" := by
    rw [htype]
    simp
  have h1 : verifyStep1 w s = (w, [], some p) := by
    simp [verifyStep1, hsp, hp, hps]
  have h2 : verifyStep2 w now s (some p) = (w, []) := by
    simp [verifyStep2, hdep]
  have h3 : verifyStep3 w s = (w, []) := by
    simp [verifyStep3, hsc, hc, hcs]
  have hsig : ¬ (true = false) := by simp
  refine ⟨?_, ?_, ?_, ?_⟩
  · simp only [verifyCheckoutSession, if_pos hpaid, h1, h2, h3]
  · simp only [verifyCheckoutSession, if_pos hpaid, h1, h2, h3,
      List.append_nil]
  · simp only [webhook, if_neg hsig, handleCheckoutSessionCompleted,
      if_neg hdep, hsp, hp, updatePayment_consultations, hsc, hc,
      updateConsultation_users, updatePayment_users, hu]
  · simp only [webhook, if_neg hsig, handleCheckoutSessionCompleted,
      if_neg hdep, hsp, hp, updatePayment_consultations, hsc, hc,
      updateConsultation_users, updatePayment_users, hu]
    rw [payStatusOf_updateConsultation]
    exact payStatusOf_completeWrite w pid p hp s.id s.paymentIntent

theorem c1_second_delivery_witness :
    (verifyCheckoutSession w1c 0 sFee1).world = w1c ∧
    (verifyCheckoutSession w1c 0 sFee1).effects = [] ∧
    (webhook w1c 0 true (WebhookEvent.checkoutSessionCompleted sFee1)).effects =
      [Effect.paymentWrite 1, Effect.consultationWrite 2,
       Effect.emailSent "consultation-payment-confirmed"] ∧
    World.payStatusOf
        (webhook w1c 0 true (WebhookEvent.checkoutSessionCompleted sFee1)).world
        1 = some PayStatus.completed :=
  c1_second_delivery w1c 0 1 2 pPaid1 cSched2 uClient7 sFee1 rfl rfl rfl rfl
    rfl rfl rfl rfl rfl

/-- C6 counterexample: the verify-session finalization
(`findOneAndUpdate({ _id, status: { $ne: 'scheduled' } })`) flips a
`cancelled` consultation back to `scheduled` — terminal states are mutable
through the payment-reconciliation paths. -/
theorem c6_counterexample :
    World.consStatusOf w6c 5 = some CStatus.cancelled ∧
    World.consStatusOf (verifyCheckoutSession w6c 0 sVerify5).world 5 =
      some CStatus.scheduled :=
  ⟨rfl, rfl⟩

/-- The application-stage advance never touches consultations. -/
theorem consultations_advanceDepositStage (w1 : World) (aid : Nat) :
    (advanceDepositStage w1 aid).1.consultations = w1.consultations := by
  cases hfa : w1.applications.find? (fun a => a.id == aid) with
  | none => simp [advanceDepositStage, hfa]
  | some a =>
    by_cases hstage : a.stage = "consultation"
    · simp [advanceDepositStage, hfa, hstage]
    · simp [advanceDepositStage, hfa, hstage]

/-- The payment-completion block of verify never touches consultations. -/
theorem consultations_verifyStep1 (w : World) (s : StripeSession) :
    (verifyStep1 w s).1.consultations = w.consultations := by
  cases hmp : s.metaPaymentId with
  | none => simp [verifyStep1, hmp]
  | some pid =>
    cases hfp : w.payments.find? (fun p => p.id == pid) with
    | none => simp [verifyStep1, hmp, hfp]
    | some p =>
      by_cases hst : p.status = PayStatus.completed
      · simp [verifyStep1, hmp, hfp, hst]
      · simp [verifyStep1, hmp, hfp, hst]

/-- The deposit block of verify never touches consultations. -/
theorem consultations_verifyStep2 (w : World) (now : Int) (s : StripeSession)
    (pOpt : Option Payment) :
    (verifyStep2 w now s pOpt).1.consultations = w.consultations := by
  by_cases hdep : s.metaType = some "deposit"
  · cases hsa : s.metaApplicationId with
    | none => simp [verifyStep2, hdep, hsa]
    | some aid =>
      cases pOpt with
      | none => simp [verifyStep2, hdep, hsa, consultations_advanceDepositStage]
      | some p1 =>
        by_cases hinv : p1.invoiceUrl = none
        · simp [verifyStep2, hdep, hsa, hinv,
            consultations_advanceDepositStage]
        · simp [verifyStep2, hdep, hsa, hinv,
            consultations_advanceDepositStage]
  · simp [verifyStep2, hdep]

/-- C6 amended: terminal consultations (`completed`, `cancelled`) do reject
mutation through `edit` and `cancel` (state and effects unchanged), and
`confirm-booking` rejects a `cancelled` one; but the verify-session
finalization and the webhook finalization are unguarded and set the referenced
terminal consultation back to `scheduled`, and the public `confirm-booking`
re-schedules a `completed` one. -/
theorem c6_terminal_guards (w : World) (now : Int) (cid pid : Nat)
    (c : Consultation) (p : Payment) (u : UserRec) (s : StripeSession)
    (rq : EditRequest) (actorId : Nat) (role : String) (email : String)
    (hc : w.consultations.find? (fun x => x.id == cid) = some c)
    (hterm : c.status = CStatus.completed ∨ c.status = CStatus.cancelled)
    (hpaid : s.paymentStatus = "paid")
    (htype : s.metaType = some "consultation_fee")
    (hsp : s.metaPaymentId = some pid)
    (hsc : s.metaConsultationId = some cid)
    (hp : w.payments.find? (fun x => x.id == pid) = some p)
    (hfu : w.users.find? (fun x => x.id == c.clientId) = some u)
    (hem : u.email = email) :
    editConsultation w now cid rq = ⟨w, [], EditResult.cannotEdit⟩ ∧
    (cancel w now actorId role cid).world = w ∧
    (cancel w now actorId role cid).effects = [] ∧
    (c.status = CStatus.cancelled →
      (confirmBooking w cid email).world = w ∧
      (confirmBooking w cid email).effects = []) ∧
    World.consStatusOf (verifyCheckoutSession w now s).world cid =
      some CStatus.scheduled ∧
    World.consStatusOf
        (webhook w now true (WebhookEvent.checkoutSessionCompleted s)).world
        cid = some CStatus.scheduled ∧
    (c.status = CStatus.completed →
      World.consStatusOf (confirmBooking w cid email).world cid =
        some CStatus.scheduled) := by
  have hstate : ¬(c.status = CStatus.scheduled ∨
      c.status = CStatus.pendingPayment) := by
    rcases hterm with h | h <;> simp [h]
  have hne_sched : c.status ≠ CStatus.scheduled := by
    rcases hterm with h | h <;> simp [h]
  refine ⟨?_, ?_, ?_, ?_, ?_, ?_, ?_⟩
  · simp only [editConsultation, hc, if_pos hterm]
  · unfold cancel
    simp only [hc]
    by_cases hauth : c.clientId ≠ actorId ∧ role ≠ "admin" ∧ role ≠ "adviser"
    · rw [if_pos hauth]
    · rw [if_neg hauth, if_pos hstate]
  · unfold cancel
    simp only [hc]
    by_cases hauth : c.clientId ≠ actorId ∧ role ≠ "admin" ∧ role ≠ "adviser"
    · rw [if_pos hauth]
    · rw [if_neg hauth, if_pos hstate]
  · intro hcanc
    unfold confirmBooking
    simp only [hc]
    cases hfu' : w.users.find? (fun u => u.id == c.clientId) with
    | none => exact ⟨rfl, rfl⟩
    | some u' =>
      dsimp only
      by_cases hem' : u'.email ≠ email
      · rw [if_pos hem']
        exact ⟨rfl, rfl⟩
      · rw [if_neg hem', if_neg (by simp [hcanc]), if_pos hcanc]
        exact ⟨rfl, rfl⟩
  · have hstep3 : ∀ v : World, v.consultations = w.consultations →
        World.consStatusOf (verifyStep3 v s).1 cid = some CStatus.scheduled := by
      intro v hv
      have hset : World.consStatusOf (v.updateConsultation cid
          (fun x => { x with status := CStatus.scheduled, expiresAt := none }))
          cid = some CStatus.scheduled := by
        unfold World.consStatusOf
        rw [updateConsultation_consultations,
          find?_updateWhere v.consultations (fun x => x.id == cid)
            (fun x => { x with status := CStatus.scheduled, expiresAt := none })
            (fun a => rfl),
          hv, hc]
        rfl
      simp only [verifyStep3, hsc, hv, hc]
      rw [if_pos hne_sched]
      exact hset
    simp only [verifyCheckoutSession, if_pos hpaid]
    exact hstep3 _ ((consultations_verifyStep2 _ now s _).trans
      (consultations_verifyStep1 w s))
  · have hdep : ¬ s.metaType = some "deposit" := by
      rw [htype]
      simp
    have hsig : ¬ (true = false) := by simp
    simp only [webhook, if_neg hsig, handleCheckoutSessionCompleted,
      if_neg hdep, hsp, hp, updatePayment_consultations, hsc, hc,
      updateConsultation_users, updatePayment_users, hfu]
    exact consStatusOf_after _ cid c
      (by rw [updatePayment_consultations]; exact hc) CStatus.scheduled
  · intro hcomp
    unfold confirmBooking
    simp only [hc, hfu]
    rw [if_neg (not_not_intro hem), if_neg (by simp [hcomp]),
      if_neg (by simp [hcomp])]
    exact consStatusOf_after w cid c hc CStatus.scheduled

theorem c6_terminal_guards_witness :
    editConsultation w6w 0 5 {} = ⟨w6w, [], EditResult.cannotEdit⟩ ∧
    (cancel w6w 0 1 "admin" 5).world = w6w ∧
    (cancel w6w 0 1 "admin" 5).effects = [] ∧
    (cCancelled5.status = CStatus.cancelled →
      (confirmBooking w6w 5 "kim@example.com").world = w6w ∧
      (confirmBooking w6w 5 "kim@example.com").effects = []) ∧
    World.consStatusOf (verifyCheckoutSession w6w 0 sFee6).world 5 =
      some CStatus.scheduled ∧
    World.consStatusOf
        (webhook w6w 0 true (WebhookEvent.checkoutSessionCompleted sFee6)).world
        5 = some CStatus.scheduled ∧
    (cCancelled5.status = CStatus.completed →
      World.consStatusOf (confirmBooking w6w 5 "kim@example.com").world 5 =
        some CStatus.scheduled) :=
  c6_terminal_guards w6w 0 5 30 cCancelled5 pFee30 uKim1 sFee6 {} 1 "admin"
    "kim@example.com" rfl (Or.inr rfl) rfl rfl rfl rfl rfl rfl rfl

/-- Function `applyFieldEdits` never changes the consultation id. -/
theorem applyFieldEdits_id (rq : EditRequest) (x : Consultation) :
    (applyFieldEdits rq x).id = x.id := by
  unfold applyFieldEdits
  cases rq.duration <;> cases rq.method <;> cases rq.ctype <;>
    cases rq.notes <;> cases rq.meetingLink <;> dsimp only <;>
    (repeat' split) <;> rfl

/-- C9 counterexample: rescheduling into a slot occupied by another active
consultation — here an unexpired `pending_payment` hold — does not fail with
`SlotConflict`: the edit succeeds and the consultation becomes `rescheduled`,
because the availability check ignores holds. -/
theorem c9_counterexample :
    (editConsultation w9c 0 1 rq9).result = EditResult.ok ∧
    World.consStatusOf (editConsultation w9c 0 1 rq9).world 1 =
      some CStatus.rescheduled :=
  ⟨rfl, rfl⟩

/-- C9 amended: an edit that moves a non-terminal consultation to a new
date/time fails with the 409 `SLOT_UNAVAILABLE` conflict — leaving the state
entirely unchanged — iff a consultation with status `scheduled` or `completed`
occupies the new window (`pending_payment` holds do not block it); when the new
slot passes the check, the edit records `rescheduledFrom` (the original
booking's own id), a human-readable reason, the new date and status
`rescheduled`. -/
theorem c9_edit_reschedule (w : World) (now : Int) (cid : Nat)
    (c : Consultation) (rq : EditRequest) (slot : EditSlot)
    (hc : w.consultations.find? (fun x => x.id == cid) = some c)
    (hterm : ¬(c.status = CStatus.completed ∨ c.status = CStatus.cancelled))
    (hslot : rq.newSlot = some slot)
    (hd : dateFormatOk slot.dateStr = true)
    (ht : timeFormatOk slot.timeStr = true)
    (hnow : ¬ slot.ts < now) :
    (isSlotAvailable w.consultations slot.ts
        (slot.ts + jsOrInt rq.duration c.duration * 60000) = false →
      editConsultation w now cid rq = ⟨w, [], EditResult.slotUnavailable⟩) ∧
    (isSlotAvailable w.consultations slot.ts
        (slot.ts + jsOrInt rq.duration c.duration * 60000) = true →
      (editConsultation w now cid rq).result = EditResult.ok ∧
      (editConsultation w now cid rq).world.consultations.find?
          (fun x => x.id == cid) = some
        { applyFieldEdits rq
            { c with rescheduledFrom := some c.id,
                     rescheduleReason :=
                       some (jsOrStr rq.rescheduleReason "Schedule updated"),
                     scheduledDate := slot.ts } with
          status := CStatus.rescheduled }) := by
  constructor
  · intro hav
    simp only [editConsultation, hc, if_neg hterm, hslot,
      if_neg (by simp [hd] : ¬ dateFormatOk slot.dateStr = false),
      if_neg (by simp [ht] : ¬ timeFormatOk slot.timeStr = false),
      if_neg hnow, if_pos hav]
  · intro hav
    simp only [editConsultation, hc, if_neg hterm, hslot,
      if_neg (by simp [hd] : ¬ dateFormatOk slot.dateStr = false),
      if_neg (by simp [ht] : ¬ timeFormatOk slot.timeStr = false),
      if_neg hnow,
      if_neg (by simp [hav] : ¬ isSlotAvailable w.consultations slot.ts
        (slot.ts + jsOrInt rq.duration c.duration * 60000) = false)]
    refine ⟨by simp, ?_⟩
    rw [updateConsultation_consultations,
      find?_updateWhere w.consultations (fun x => x.id == cid)
        (fun x =>
          { applyFieldEdits rq
              { x with rescheduledFrom := some x.id,
                       rescheduleReason :=
                         some (jsOrStr rq.rescheduleReason "Schedule updated"),
                       scheduledDate := slot.ts } with
            status := CStatus.rescheduled })
        (fun a => by simp [applyFieldEdits_id]),
      hc, Option.map_some']

theorem c9_edit_reschedule_witness :
    (isSlotAvailable w9c.consultations 72000000
        (72000000 + jsOrInt rq9.duration cSchedEdit.duration * 60000) = false →
      editConsultation w9c 0 1 rq9 = ⟨w9c, [], EditResult.slotUnavailable⟩) ∧
    (isSlotAvailable w9c.consultations 72000000
        (72000000 + jsOrInt rq9.duration cSchedEdit.duration * 60000) = true →
      (editConsultation w9c 0 1 rq9).result = EditResult.ok ∧
      (editConsultation w9c 0 1 rq9).world.consultations.find?
          (fun x => x.id == 1) = some
        { applyFieldEdits rq9
            { cSchedEdit with
              rescheduledFrom := some cSchedEdit.id,
              rescheduleReason :=
                some (jsOrStr rq9.rescheduleReason "Schedule updated"),
              scheduledDate := 72000000 } with
          status := CStatus.rescheduled }) :=
  c9_edit_reschedule w9c 0 1 cSchedEdit rq9
    { dateStr := "2025-03-01", timeStr := "20:00", ts := 72000000 } rfl
    (by decide) rfl rfl rfl (by decide)

theorem c7_refund_policy_witness :
    World.consStatusOf (cancel w7c 0 1 "client" 10).world 10 =
        some CStatus.cancelled ∧
    (World.payStatusOf (cancel w7c 0 1 "client" 10).world 20 =
        some PayStatus.refunded ↔ 86400000 < cSched48h.scheduledDate - 0) ∧
    (cSched48h.scheduledDate - 0 ≤ 86400000 →
      World.payStatusOf (cancel w7c 0 1 "client" 10).world 20 =
        some PayStatus.completed) :=
  c7_refund_policy w7c 0 1 "client" 10 20 cSched48h pCompleted20 rfl
    (Or.inl rfl) (Or.inl rfl) rfl rfl rfl

/-- C10 confirmed: whenever `create-consultation-payment` succeeds, the
checkout session is created with `unit_amount = Math.round(amount * 100)` for
the caller-supplied `amount` (accepted whenever `0 < amount ≤ 10000`), and the
outcome is identical for every stored value of the linked Payment's `amount` —
the handler never compares the requested amount with the stored consultation
fee. -/
theorem c10_caller_sets_amount (w : World) (sid : String) (cid pid : Nat)
    (amt : ℚ) (em : String) (c : Consultation) (u : UserRec) (p : Payment)
    (h1 : 0 < amt) (h2 : amt ≤ 10000) (hne : em ≠ "")
    (hemail : emailFormatOk em = true)
    (hc : w.consultations.find? (fun x => x.id == cid) = some c)
    (hu : w.users.find? (fun x => x.id == c.clientId) = some u)
    (hmatch : toLowerStr u.email = toLowerStr em)
    (hcs : c.status = CStatus.pendingPayment)
    (hp : w.payments.find? (fun x => x.id == pid) = some p)
    (hps : p.status = PayStatus.pending) :
    (createConsultationPayment w sid
        { consultationId := some cid, paymentId := some pid,
          amount := some amt, email := some em }).result =
      CreatePayResult.ok sid (jsRound (amt * 100)) ∧
    ∀ a : ℚ,
      (createConsultationPayment (w.setPaymentAmount pid a) sid
          { consultationId := some cid, paymentId := some pid,
            amount := some amt, email := some em }).result =
        CreatePayResult.ok sid (jsRound (amt * 100)) := by
  have hga : ¬(amt = 0 ∨ em = "") := by
    push_neg
    exact ⟨ne_of_gt h1, hne⟩
  have hrange : ¬(amt ≤ 0 ∨ 10000 < amt) := by
    push_neg
    exact ⟨h1, h2⟩
  have hemopp : ¬ emailFormatOk em = false := by simp [hemail]
  have hmm : ¬ toLowerStr u.email ≠ toLowerStr em := not_not_intro hmatch
  have hcss : ¬ c.status ≠ CStatus.pendingPayment := not_not_intro hcs
  constructor
  · simp only [createConsultationPayment, if_neg hga, if_neg hemopp,
      if_neg hrange, hc, hu, if_neg hmm, if_neg hcss, hp,
      if_neg (not_not_intro hps)]
  · intro a
    have hp' : (w.setPaymentAmount pid a).payments.find?
        (fun x => x.id == pid) = some { p with amount := a } := by
      unfold World.setPaymentAmount
      rw [updatePayment_payments,
        find?_updateWhere w.payments (fun x => x.id == pid)
          (fun q => { q with amount := a }) (fun q => rfl),
        hp, Option.map_some']
    have hc' : (w.setPaymentAmount pid a).consultations.find?
        (fun x => x.id == cid) = some c := hc
    have hu' : (w.setPaymentAmount pid a).users.find?
        (fun x => x.id == c.clientId) = some u := hu
    have hps' : ¬ (Payment.status { p with amount := a } ≠ PayStatus.pending) :=
      not_not_intro hps
    simp only [createConsultationPayment, if_neg hga, if_neg hemopp,
      if_neg hrange, hc', hu', if_neg hmm, if_neg hcss, hp', if_neg hps']

theorem c10_caller_sets_amount_witness :
    (createConsultationPayment w10c "cs_10"
        { consultationId := some 10, paymentId := some 20,
          amount := some 999, email := some "jane@example.com" }).result =
      CreatePayResult.ok "cs_10" (jsRound (999 * 100)) ∧
    ∀ a : ℚ,
      (createConsultationPayment (w10c.setPaymentAmount 20 a) "cs_10"
          { consultationId := some 10, paymentId := some 20,
            amount := some 999, email := some "jane@example.com" }).result =
        CreatePayResult.ok "cs_10" (jsRound (999 * 100)) :=
  c10_caller_sets_amount w10c "cs_10" 10 20 999 "jane@example.com" cPend10
    uClient7 pPend20 (by norm_num) (by norm_num) (by decide) rfl rfl rfl rfl
    rfl rfl rfl

end Migrantifly
